import Mathlib

/-
Verification of the cart / checkout logic in
`src/chapter-8/pages/api/index.ts`.

The file embeds the Pothos schema-builder implementation (the second
half of `index.ts`) as pure Lean functions over an explicit store, plus
the one expression of the resolver-map implementation (the first half)
that a claim compares against.

Modelling decisions:
- The persistence layer (Prisma) keeps carts in a table keyed by the
  unique primary key `Cart.id`; we model the store as a function from
  cart ids to the cart's item list (`none` = no cart row).
- `prisma.cart.update` on a missing id raises a record-not-found error
  (Prisma error P2025); we model that with `Except PrismaError`.
- `prisma.cart.upsert` never fails; it is a total function here.
- JavaScript truthiness: for numbers, `x || d` yields `d` exactly when
  `x` is `0` (or null/undefined); for nullable strings, `s || undefined`
  and `s ? a : b` treat both `null` and `""` as falsy.
- The Stripe call in `createCheckoutSession` happens after the two
  validations; we model the function as returning either the thrown
  error or the `line_items` payload handed to the gateway, so an
  `Except.error` result means the gateway request is never constructed.
-/

namespace CartApi

/-- A `CartItem` row: composite key (id, cartId); the `cartId` component
is implicit in which cart's item list the row lives in. Fields follow the
Prisma model used by `index.ts` (`description` and `image` nullable,
`price` and `quantity` integers). -/
structure CartItem where
  id : String
  name : String
  description : Option String
  image : Option String
  price : Int
  quantity : Int
deriving DecidableEq

/-- The cart table: each existing cart id maps to its list of items.
A `Cart` row itself carries only its `id`, so a cart is fully described
by its item list. -/
abbrev Store := String → Option (List CartItem)

/-- The items of cart `cid` (empty when the cart row is absent). -/
def itemsAt (s : Store) (cid : String) : List CartItem :=
  (s cid).getD []

/-- The item with id `iid` in cart `cid`, if any. -/
def lookupItem (s : Store) (cid iid : String) : Option CartItem :=
  (itemsAt s cid).find? (fun it => it.id == iid)

/-- `AddToCartInput` (index.ts lines 246-256): `description`, `image`
and `quantity` are optional; `quantity` has GraphQL `defaultValue: 1`,
so `none` stands for an absent or explicitly null quantity. -/
structure AddToCartInput where
  cartId : String
  id : String
  name : String
  description : Option String
  image : Option String
  price : Int
  quantity : Option Int

/-- Effective quantity in the schema-builder `addItem`
(index.ts lines 271 and 290): `input.quantity ?? 1` — nullish
coalescing, so an explicit `0` stays `0`. -/
def builderEffectiveQuantity (q : Option Int) : Int :=
  q.getD 1

/-- Effective quantity in the resolver-map `addItem`
(index.ts lines 34 and 39): `input.quantity || 1` — JS truthiness, so
null/undefined and an explicit `0` all become `1`. -/
def resolverMapEffectiveQuantity (q : Option Int) : Int :=
  match q with
  | none => 1
  | some n => if n = 0 then 1 else n

/-- The item record built from the input in `addItem`
(index.ts lines 265-272). -/
def itemFromInput (input : AddToCartInput) : CartItem :=
  { id := input.id
    name := input.name
    description := input.description
    image := input.image
    price := input.price
    quantity := builderEffectiveQuantity input.quantity }

/-- The nested `items.upsert` of `addItem`'s update branch
(index.ts lines 284-294): if an item with the composite key exists its
quantity is incremented by `input.quantity ?? 1` (name, description,
image and price are untouched); otherwise the item from the input is
created. -/
def upsertItemIntoList (items : List CartItem) (input : AddToCartInput) : List CartItem :=
  if items.any (fun it => it.id == input.id) then
    items.map (fun it =>
      if it.id == input.id then
        { it with quantity := it.quantity + builderEffectiveQuantity input.quantity }
      else it)
  else
    items ++ [itemFromInput input]

/-- `addItem` mutation, schema-builder version (index.ts lines 258-299):
`prisma.cart.upsert` on `input.cartId` — when the cart is absent it is
created with the single item from the input; when present the nested
item upsert runs. -/
def addItem (s : Store) (input : AddToCartInput) : Store :=
  match s input.cartId with
  | none => fun cid => if cid = input.cartId then some [itemFromInput input] else s cid
  | some items => fun cid => if cid = input.cartId then some (upsertItemIntoList items input) else s cid

/-- `cart` query field (index.ts lines 172-190): `prisma.cart.upsert`
with `update: {}` and `create: { id }` — find-or-create. Returns the
updated store and the found or created cart's items; the return type has
no error case, matching that the upsert cannot report "not found". -/
def cartQuery (s : Store) (id : String) : Store × List CartItem :=
  match s id with
  | some items => (s, items)
  | none => ((fun cid => if cid = id then some [] else s cid), [])

/-- Error raised by `prisma.cart.update` when no row matches the
`where` clause (Prisma P2025). -/
inductive PrismaError where
  | recordNotFound
deriving DecidableEq

/-- `RemoveFromCartInput` (index.ts lines 301-306). -/
structure RemoveFromCartInput where
  cartId : String
  id : String

/-- `removeItem` mutation (index.ts lines 308-327):
`prisma.cart.update({ where: { id: input.id }, data: { items: {
deleteMany: { id: input.id } } } })`. Note the outer `where` uses
`input.id` (the item id), not `input.cartId`. -/
def removeItem (s : Store) (input : RemoveFromCartInput) : Except PrismaError Store :=
  match s input.id with
  | none => Except.error PrismaError.recordNotFound
  | some items =>
      Except.ok (fun cid =>
        if cid = input.id then some (items.filter (fun it => !(it.id == input.id)))
        else s cid)

/-- `IncreaseCartItemInput` (index.ts lines 329-334). -/
structure IncreaseCartItemInput where
  cartId : String
  id : String

/-- `increaseCartItem` mutation (index.ts lines 336-360):
`prisma.cart.update({ where: { id: input.id }, data: { items: {
updateMany: { where: { id: input.id }, data: { quantity: { increment:
1 } } } } } })`. Again the outer `where` uses `input.id`. -/
def increaseCartItem (s : Store) (input : IncreaseCartItemInput) : Except PrismaError Store :=
  match s input.id with
  | none => Except.error PrismaError.recordNotFound
  | some items =>
      Except.ok (fun cid =>
        if cid = input.id then
          some (items.map (fun it =>
            if it.id == input.id then { it with quantity := it.quantity + 1 } else it))
        else s cid)

/-- `DecreaseCartItemInput` (index.ts lines 362-367). -/
structure DecreaseCartItemInput where
  cartId : String
  id : String

/-- `decreaseCartItem` mutation (index.ts lines 369-393): like
`increaseCartItem` but the `updateMany` filter is
`{ id: input.id, quantity: { gte: 1 } }` and the data decrements by 1:
only rows already at quantity >= 1 are decremented. -/
def decreaseCartItem (s : Store) (input : DecreaseCartItemInput) : Except PrismaError Store :=
  match s input.id with
  | none => Except.error PrismaError.recordNotFound
  | some items =>
      Except.ok (fun cid =>
        if cid = input.id then
          some (items.map (fun it =>
            if it.id == input.id ∧ 1 ≤ it.quantity then { it with quantity := it.quantity - 1 }
            else it))
        else s cid)

/-- Post-state of a `decreaseCartItem` call: the updated store when the
update succeeds, the unchanged store when Prisma rejects it (a thrown
error leaves the database untouched). -/
def afterDecrease (s : Store) (input : DecreaseCartItemInput) : Store :=
  match decreaseCartItem s input with
  | Except.ok s' => s'
  | Except.error _ => s

/-- JS `n || 1` on an integer: `0` is falsy. -/
def jsOrOne (n : Int) : Int :=
  if n = 0 then 1 else n

/-- `totalItems` resolver (index.ts lines 208-214, same expression as
lines 56-63): `items.reduce((total, item) => total + item.quantity || 1, 0)`.
By JS precedence this is `(total + item.quantity) || 1`: the running
total, not the item's quantity, is replaced by 1 when it is 0. -/
def totalItems (items : List CartItem) : Int :=
  items.foldl (fun total it => jsOrOne (total + it.quantity)) 0

/-- `subTotal` resolver amount (index.ts lines 216-224, same expression
as lines 64-78): `items.reduce((acc, item) => acc + item.price * item.quantity, 0)`. -/
def subTotal (items : List CartItem) : Int :=
  items.foldl (fun acc it => acc + it.price * it.quantity) 0

/-- Errors thrown by `createCheckoutSession` before the gateway call:
`GraphQLYogaError('Invalid cart')` and `GraphQLYogaError('Cart is empty')`. -/
inductive CheckoutError where
  | invalidCart
  | emptyCart
deriving DecidableEq

/-- `product_data` of a Stripe line item (index.ts lines 443-447). -/
structure ProductData where
  name : String
  description : Option String
  images : List String
deriving DecidableEq

/-- `price_data` of a Stripe line item (index.ts lines 440-448). -/
structure PriceData where
  currency : String
  unit_amount : Int
  product_data : ProductData
deriving DecidableEq

/-- One element of `line_items` (index.ts lines 437-450). -/
structure LineItem where
  quantity : Int
  price_data : PriceData
deriving DecidableEq

/-- JS truthiness of a nullable string: `null`/`undefined` and `""` are
falsy. -/
def truthyString : Option String → Bool
  | none => false
  | some s => !(s == "")

/-- The projection of one cart item into a Stripe line item
(index.ts lines 437-450): `description: item.description || undefined`
and `images: item.image ? [item.image] : []` both use JS truthiness. -/
def toLineItem (it : CartItem) : LineItem :=
  { quantity := it.quantity
    price_data :=
      { currency := "USD"
        unit_amount := it.price
        product_data :=
          { name := it.name
            description := if truthyString it.description then it.description else none
            images :=
              match it.image with
              | some im => if im == "" then [] else [im]
              | none => [] } } }

/-- `createCheckoutSession` mutation (index.ts lines 413-468) up to the
gateway call: `findUnique` on `cartId` (this resolver does use
`input.cartId`), throw `Invalid cart` when no cart row exists, throw
`Cart is empty` when `cart.items.length === 0`, otherwise build
`line_items`. The `Except.ok` payload is the list handed to
`stripe.checkout.sessions.create`, so an error result means the
external call is never made. -/
def createCheckoutSession (s : Store) (cartId : String) : Except CheckoutError (List LineItem) :=
  match s cartId with
  | none => Except.error CheckoutError.invalidCart
  | some items =>
      if items.length = 0 then Except.error CheckoutError.emptyCart
      else Except.ok (items.map toLineItem)

/-- A store with no cart rows at all. -/
def emptyStore : Store := fun _ => none

/-- Concrete store: cart `c1` holds item `i1` (quantity 2), and a cart
whose id happens to equal the item id `i1` also exists, with no items. -/
def storeMisaddressed : Store := fun cid =>
  if cid = "c1" then some [⟨"i1", "Mug", none, none, 500, 2⟩]
  else if cid = "i1" then some [] else none

/-- Concrete store: only cart `c1`, holding item `i1` (quantity 2);
no cart row has id `i1`. -/
def storeSingleCart : Store := fun cid =>
  if cid = "c1" then some [⟨"i1", "Mug", none, none, 500, 2⟩] else none

/-- Concrete item list: quantity 2 followed by quantity 0. -/
def quantityZeroSecond : List CartItem :=
  [⟨"a", "A", none, none, 100, 2⟩, ⟨"b", "B", none, none, 100, 0⟩]

/-- Concrete item list: quantity 0 followed by quantity 2. -/
def quantityZeroFirst : List CartItem :=
  [⟨"b", "B", none, none, 100, 0⟩, ⟨"a", "A", none, none, 100, 2⟩]

/-- Concrete store: cart `c9` holds one item whose `image` column is the
empty string (a non-null value). -/
def storeEmptyImage : Store := fun cid =>
  if cid = "c9" then some [⟨"i9", "Sticker", none, some "", 100, 1⟩] else none

/-- Concrete store: cart `w` holds one fully-populated item. -/
def storeOneMug : Store := fun cid =>
  if cid = "w" then some [⟨"m", "Mug", some "big", some "mug.png", 500, 2⟩] else none

/-- Concrete store: cart `z` holds one item already at quantity 0. -/
def storeZeroQty : Store := fun cid =>
  if cid = "z" then some [⟨"i", "Pin", none, none, 100, 0⟩] else none

/- ------------------------------------------------------------------ -/
/- Helper lemmas                                                       -/
/- ------------------------------------------------------------------ -/

theorem any_eq_false_of_find?_eq_none {p : CartItem → Bool} {l : List CartItem}
    (h : l.find? p = none) : l.any p = false := by
  have h' := List.find?_eq_none.mp h
  simp only [List.any_eq_false]
  intro x hx
  simpa using h' x hx

theorem find?_map_append_last {α : Type} (p : α → Bool) (f : α → α) (l : List α) (a : α)
    (hl : ∀ x ∈ l, p (f x) = false) (ha : p (f a) = true) :
    ((l ++ [a]).map f).find? p = some (f a) := by
  induction l with
  | nil => simp [List.find?, ha]
  | cons x xs ih =>
      have hx := hl x (by simp)
      simp only [List.cons_append, List.map_cons, List.find?, hx]
      exact ih (fun y hy => hl y (by simp [hy]))

theorem addItem_of_none (s : Store) (input : AddToCartInput) (h : s input.cartId = none) :
    addItem s input = fun cid => if cid = input.cartId then some [itemFromInput input] else s cid := by
  unfold addItem
  rw [h]

theorem addItem_of_some (s : Store) (input : AddToCartInput) (items : List CartItem)
    (h : s input.cartId = some items) :
    addItem s input
      = fun cid => if cid = input.cartId then some (upsertItemIntoList items input) else s cid := by
  unfold addItem
  rw [h]

theorem upsert_of_absent (items : List CartItem) (input : AddToCartInput)
    (h : items.any (fun it => it.id == input.id) = false) :
    upsertItemIntoList items input = items ++ [itemFromInput input] := by
  simp [upsertItemIntoList, h]

theorem upsert_of_present (items : List CartItem) (input : AddToCartInput)
    (h : items.any (fun it => it.id == input.id) = true) :
    upsertItemIntoList items input
      = items.map (fun it =>
          if it.id == input.id then
            { it with quantity := it.quantity + builderEffectiveQuantity input.quantity }
          else it) := by
  simp [upsertItemIntoList, h]

theorem lookupItem_update_self (s : Store) (cid iid : String) (l : List CartItem) :
    lookupItem (fun c => if c = cid then some l else s c) cid iid
      = l.find? (fun it => it.id == iid) := by
  simp [lookupItem, itemsAt]

theorem itemsAt_update_self (s : Store) (cid : String) (l : List CartItem) :
    itemsAt (fun c => if c = cid then some l else s c) cid = l := by
  simp [itemsAt]

theorem itemsAt_update_other (s : Store) (cid c : String) (l : List CartItem) (h : c ≠ cid) :
    itemsAt (fun c' => if c' = cid then some l else s c') c = itemsAt s c := by
  simp [itemsAt, h]

theorem foldl_add_map (f : CartItem → Int) (l : List CartItem) (t : Int) :
    l.foldl (fun a it => a + f it) t = t + (l.map f).sum := by
  induction l generalizing t with
  | nil => simp
  | cons x xs ih => simp [ih]; ring

theorem totalItems_go (l : List CartItem) (t : Int) (ht : 1 ≤ t)
    (hnn : ∀ it ∈ l, 0 ≤ it.quantity) :
    l.foldl (fun total it => jsOrOne (total + it.quantity)) t
      = t + (l.map (fun it => it.quantity)).sum := by
  induction l generalizing t with
  | nil => simp
  | cons x xs ih =>
      have hx : 0 ≤ x.quantity := hnn x (by simp)
      have h1 : jsOrOne (t + x.quantity) = t + x.quantity := by
        unfold jsOrOne
        rw [if_neg (by omega)]
      simp only [List.foldl, h1, List.map_cons, List.sum_cons]
      rw [ih (t + x.quantity) (by omega) (fun it hit => hnn it (by simp [hit]))]
      ring

/- ------------------------------------------------------------------ -/
/- Claim theorems                                                      -/
/- ------------------------------------------------------------------ -/

/-- C1: calling `addItem` twice with the same (cartId, itemId) — even
with different name, description, image and price in the second call —
leaves name, description, image and price at the first call's values,
and sets the item's quantity to the sum of the quantities supplied by
the two calls, each defaulting to 1 when unspecified
(`builderEffectiveQuantity` is `input.quantity ?? 1`). Stated for an
item that was not yet in the cart, over an arbitrary initial store. -/
theorem addItem_merge (s : Store) (cid iid n₁ n₂ : String) (d₁ d₂ im₁ im₂ : Option String)
    (p₁ p₂ : Int) (q₁ q₂ : Option Int)
    (habs : lookupItem s cid iid = none) :
    lookupItem (addItem (addItem s ⟨cid, iid, n₁, d₁, im₁, p₁, q₁⟩)
        ⟨cid, iid, n₂, d₂, im₂, p₂, q₂⟩) cid iid
      = some ⟨iid, n₁, d₁, im₁, p₁,
          builderEffectiveQuantity q₁ + builderEffectiveQuantity q₂⟩ := by
  cases h : s cid with
  | none =>
      rw [addItem_of_none s ⟨cid, iid, n₁, d₁, im₁, p₁, q₁⟩ h]
      dsimp only
      have h1 : (fun c => if c = cid then some [itemFromInput ⟨cid, iid, n₁, d₁, im₁, p₁, q₁⟩]
          else s c) cid = some [itemFromInput ⟨cid, iid, n₁, d₁, im₁, p₁, q₁⟩] := by simp
      rw [addItem_of_some _ ⟨cid, iid, n₂, d₂, im₂, p₂, q₂⟩ _ h1]
      dsimp only
      rw [lookupItem_update_self]
      simp [upsertItemIntoList, itemFromInput, List.find?]
  | some items =>
      have hfind : items.find? (fun it => it.id == iid) = none := by
        simpa [lookupItem, itemsAt, h] using habs
      have hany : items.any (fun it => it.id == iid) = false :=
        any_eq_false_of_find?_eq_none hfind
      have hids : ∀ it ∈ items, (it.id == iid) = false := by
        have h' := List.find?_eq_none.mp hfind
        intro it hit
        simpa using h' it hit
      rw [addItem_of_some s ⟨cid, iid, n₁, d₁, im₁, p₁, q₁⟩ items h]
      dsimp only
      rw [upsert_of_absent items ⟨cid, iid, n₁, d₁, im₁, p₁, q₁⟩ hany]
      have h1 : (fun c => if c = cid then
            some (items ++ [itemFromInput ⟨cid, iid, n₁, d₁, im₁, p₁, q₁⟩]) else s c) cid
          = some (items ++ [itemFromInput ⟨cid, iid, n₁, d₁, im₁, p₁, q₁⟩]) := by simp
      rw [addItem_of_some _ ⟨cid, iid, n₂, d₂, im₂, p₂, q₂⟩ _ h1]
      dsimp only
      rw [lookupItem_update_self]
      have hany2 : (items ++ [itemFromInput ⟨cid, iid, n₁, d₁, im₁, p₁, q₁⟩]).any
          (fun it => it.id == iid) = true := by
        simp [List.any_append, itemFromInput]
      rw [upsert_of_present _ ⟨cid, iid, n₂, d₂, im₂, p₂, q₂⟩ hany2]
      dsimp only
      rw [find?_map_append_last (fun it => it.id == iid)
        (fun it => if it.id == iid then
          { it with quantity := it.quantity + builderEffectiveQuantity q₂ } else it)
        items (itemFromInput ⟨cid, iid, n₁, d₁, im₁, p₁, q₁⟩)
        (fun x hx => by simp [hids x hx]) (by simp [itemFromInput])]
      simp [itemFromInput]

/-- C1 witness: on the empty store, adding (`c1`, `i1`, "Mug", price 500,
quantity 2) and then (`c1`, `i1`, "Cup", price 999, quantity 3) yields the
item with the first call's name/description/image/price and quantity 5. -/
theorem addItem_merge_witness :
    lookupItem emptyStore "c1" "i1" = none ∧
    lookupItem (addItem (addItem emptyStore ⟨"c1", "i1", "Mug", none, none, 500, some 2⟩)
        ⟨"c1", "i1", "Cup", some "desc", some "cup.png", 999, some 3⟩) "c1" "i1"
      = some ⟨"i1", "Mug", none, none, 500, 5⟩ := by
  constructor
  · rfl
  · have hmain := addItem_merge emptyStore "c1" "i1" "Mug" "Cup" none (some "desc") none
      (some "cup.png") 500 999 (some 2) (some 3) rfl
    simpa [builderEffectiveQuantity] using hmain

/-- C2: `createCheckoutSession` fails exactly on an absent cart (with
`invalidCart`, the thrown `Invalid cart` error) or an existing cart with
zero items (with `emptyCart`, the thrown `Cart is empty`). Since the
`Except.ok` payload is the `line_items` handed to the payment gateway,
an error result means the gateway call is never made: the external call
happens only when both validations pass. -/
theorem createCheckoutSession_error_characterization (s : Store) (cid : String) (e : CheckoutError) :
    createCheckoutSession s cid = Except.error e ↔
      ((s cid = none ∧ e = CheckoutError.invalidCart) ∨
       (s cid = some [] ∧ e = CheckoutError.emptyCart)) := by
  cases h : s cid with
  | none => simp [createCheckoutSession, h, eq_comm]
  | some items =>
      cases items with
      | nil => simp [createCheckoutSession, h, eq_comm]
      | cons x xs => simp [createCheckoutSession, h]

/-- C3: `decreaseCartItem` never drives a quantity negative: from any
store whose quantities are all nonnegative, the post-state (unchanged
when Prisma rejects the update) again has only nonnegative quantities,
and any item already at quantity 0 is still present, unchanged, in its
cart (the `quantity >= 1` filter skips it; nothing is deleted). -/
theorem decreaseCartItem_never_negative (s : Store) (input : DecreaseCartItemInput)
    (hnn : ∀ cid, ∀ it ∈ itemsAt s cid, 0 ≤ it.quantity) :
    (∀ cid, ∀ it ∈ itemsAt (afterDecrease s input) cid, 0 ≤ it.quantity) ∧
    (∀ cid, ∀ it ∈ itemsAt s cid, it.quantity = 0 → it ∈ itemsAt (afterDecrease s input) cid) := by
  cases h : s input.id with
  | none =>
      have hA : afterDecrease s input = s := by
        unfold afterDecrease decreaseCartItem
        rw [h]
      rw [hA]
      exact ⟨hnn, fun cid it hit _ => hit⟩
  | some items =>
      have hA : afterDecrease s input = fun cid =>
          if cid = input.id then
            some (items.map (fun it =>
              if it.id == input.id ∧ 1 ≤ it.quantity then { it with quantity := it.quantity - 1 }
              else it))
          else s cid := by
        unfold afterDecrease decreaseCartItem
        rw [h]
      rw [hA]
      constructor
      · intro cid it hit
        by_cases hc : cid = input.id
        · subst hc
          rw [itemsAt_update_self] at hit
          obtain ⟨it₀, hit₀, rfl⟩ := List.mem_map.mp hit
          have h0 : 0 ≤ it₀.quantity := hnn input.id it₀ (by simpa [itemsAt, h] using hit₀)
          by_cases hcond : (it₀.id == input.id) = true ∧ 1 ≤ it₀.quantity
          · rw [if_pos hcond]
            have h1 : 1 ≤ it₀.quantity := hcond.2
            show 0 ≤ it₀.quantity - 1
            omega
          · rw [if_neg hcond]
            exact h0
        · rw [itemsAt_update_other s input.id cid _ hc] at hit
          exact hnn cid it hit
      · intro cid it hit hq
        by_cases hc : cid = input.id
        · subst hc
          rw [itemsAt_update_self]
          have hit' : it ∈ items := by simpa [itemsAt, h] using hit
          have hfix : (if it.id == input.id ∧ 1 ≤ it.quantity then
              { it with quantity := it.quantity - 1 } else it) = it := by
            rw [if_neg]
            intro hcond
            have := hcond.2
            omega
          have hm := List.mem_map_of_mem (fun it =>
            if it.id == input.id ∧ 1 ≤ it.quantity then { it with quantity := it.quantity - 1 }
            else it) hit'
          have hm' : (if it.id == input.id ∧ 1 ≤ it.quantity then
              { it with quantity := it.quantity - 1 } else it) ∈
              items.map (fun it =>
                if it.id == input.id ∧ 1 ≤ it.quantity then { it with quantity := it.quantity - 1 }
                else it) := hm
          rw [hfix] at hm'
          exact hm'
        · rw [itemsAt_update_other s input.id cid _ hc]
          exact hit

/-- C3 witness: decreasing item `i` of cart `z`, already at quantity 0,
leaves every quantity in the store nonnegative. -/
theorem decreaseCartItem_never_negative_witness :
    (∀ cid, ∀ it ∈ itemsAt storeZeroQty cid, 0 ≤ it.quantity) ∧
    (∀ cid, ∀ it ∈ itemsAt (afterDecrease storeZeroQty ⟨"z", "i"⟩) cid, 0 ≤ it.quantity) := by
  have hnn : ∀ cid, ∀ it ∈ itemsAt storeZeroQty cid, 0 ≤ it.quantity := by
    intro cid it hit
    unfold itemsAt storeZeroQty at hit
    split at hit
    · simp at hit
      subst hit
      decide
    · simp at hit
  exact ⟨hnn, (decreaseCartItem_never_negative storeZeroQty ⟨"z", "i"⟩ hnn).1⟩

/-- C4: for every cart, `subTotal` is the sum over the cart's items of
price times quantity, and a cart with zero items has subtotal 0. -/
theorem subTotal_is_sum_of_line_amounts (items : List CartItem) :
    subTotal items = (items.map (fun it => it.price * it.quantity)).sum ∧
    subTotal [] = 0 := by
  constructor
  · simpa [subTotal] using foldl_add_map (fun it => it.price * it.quantity) items 0
  · rfl

/-- C5 (code bug): `removeItem` addresses the cart by `input.id` (the
item id), not `input.cartId`. On a store where cart `c1` holds item `i1`
and a cart named `i1` exists, removing (`c1`, `i1`) succeeds but leaves
item `i1` inside cart `c1`; and when no cart named `i1` exists the call
raises record-not-found instead of silently no-opping. -/
theorem removeItem_misaddressed_cart :
    (removeItem storeMisaddressed ⟨"c1", "i1"⟩).toOption.map (fun s' => itemsAt s' "c1")
        = some [⟨"i1", "Mug", none, none, 500, 2⟩] ∧
    removeItem storeSingleCart ⟨"c1", "i1"⟩ = Except.error PrismaError.recordNotFound :=
  ⟨rfl, rfl⟩

/-- C6 (code bug): `increaseCartItem` addresses the cart by `input.id`.
On a store where cart `c1` holds item `i1` at quantity 2 and a cart
named `i1` exists, increasing (`c1`, `i1`) succeeds but leaves the item
at quantity 2 (the claim requires 3); and when no cart named `i1`
exists the call raises record-not-found instead of being a no-op. -/
theorem increaseCartItem_misaddressed_cart :
    (increaseCartItem storeMisaddressed ⟨"c1", "i1"⟩).toOption.map
        (fun s' => lookupItem s' "c1" "i1")
        = some (some ⟨"i1", "Mug", none, none, 500, 2⟩) ∧
    increaseCartItem storeSingleCart ⟨"c1", "i1"⟩ = Except.error PrismaError.recordNotFound :=
  ⟨rfl, rfl⟩

/-- C7 counterexample: on the cart [quantity 2, quantity 0], the code's
`totalItems` is 2, while the claimed per-item substitution (a
zero-quantity item contributes 1) gives 3. -/
theorem totalItems_per_item_counterexample :
    totalItems quantityZeroSecond = 2 ∧
    (quantityZeroSecond.map (fun it => if it.quantity = 0 then (1 : Int) else it.quantity)).sum = 3 ∧
    totalItems quantityZeroSecond ≠
      (quantityZeroSecond.map (fun it => if it.quantity = 0 then (1 : Int) else it.quantity)).sum := by
  refine ⟨by decide, by decide, by decide⟩

/-- C7 amended: `(total + item.quantity) || 1` substitutes 1 for the
running total, not per item. For nonnegative quantities, `totalItems`
equals the plain quantity sum, plus 1 exactly when the cart is nonempty
and its first item has quantity 0 (only then does the running total pass
through 0); a zero-quantity item positioned after a nonzero prefix
contributes 0. -/
theorem totalItems_running_total_substitution (items : List CartItem)
    (hnn : ∀ it ∈ items, 0 ≤ it.quantity) :
    totalItems items =
      (items.map (fun it => it.quantity)).sum +
        (match items with
         | [] => 0
         | it :: _ => if it.quantity = 0 then 1 else 0) := by
  cases items with
  | nil => rfl
  | cons x xs =>
      have hx : 0 ≤ x.quantity := hnn x (by simp)
      have hxs : ∀ it ∈ xs, 0 ≤ it.quantity := fun it hit => hnn it (by simp [hit])
      unfold totalItems
      simp only [List.foldl]
      by_cases h0 : x.quantity = 0
      · have he : jsOrOne (0 + x.quantity) = 1 := by simp [jsOrOne, h0]
        rw [he, totalItems_go xs 1 (le_refl 1) hxs]
        simp [h0]
        ring
      · have he : jsOrOne (0 + x.quantity) = x.quantity := by
          unfold jsOrOne
          rw [if_neg (by omega)]
          omega
        rw [he, totalItems_go xs x.quantity (by omega) hxs]
        simp [h0]

/-- C7 amended witness: on the cart [quantity 0, quantity 2] the
formula gives 0 + 2 + 1 = 3, matching the code's fold. -/
theorem totalItems_running_total_substitution_witness :
    (∀ it ∈ quantityZeroFirst, 0 ≤ it.quantity) ∧ totalItems quantityZeroFirst = 3 := by
  have hnn : ∀ it ∈ quantityZeroFirst, 0 ≤ it.quantity := by decide
  refine ⟨hnn, ?_⟩
  have h := totalItems_running_total_substitution quantityZeroFirst hnn
  simpa [quantityZeroFirst] using h

/-- C8: the `cart` query is find-or-create and can never fail: for every
store and id, the post-store has a cart row under that id (the existing
row, or a fresh empty one), and the returned item list is the existing
cart's items or empty. Its type has no error case: no "not found" is
ever raised for read access. -/
theorem cartQuery_find_or_create (s : Store) (id : String) :
    ((cartQuery s id).1 id).isSome = true ∧
    (cartQuery s id).1 id = some ((s id).getD []) ∧
    (cartQuery s id).2 = (s id).getD [] := by
  cases h : s id <;> simp [cartQuery, h]

/-- C9 counterexample: an item whose `image` column is the (non-null)
empty string is projected with `product_images = []`, not `[""]` as the
claim's "one-element list [image] when the item has an image" requires. -/
theorem checkout_empty_image_counterexample :
    (createCheckoutSession storeEmptyImage "c9").toOption.map
        (fun ls => ls.map (fun li => li.price_data.product_data.images)) = some [[]] ∧
    ([] : List String) ≠ [""] :=
  ⟨rfl, by decide⟩

/-- C9 amended: when checkout reaches the gateway call, each cart item
becomes exactly one payment line with the item's quantity, unit amount
equal to its price, currency "USD", product name equal to its name,
product description present only when the item has one, and product
images `[image]` when the item has a non-empty image and `[]` when the
image is null or the empty string (JS truthiness). -/
theorem checkout_projects_line_items (s : Store) (cid : String) (items : List CartItem)
    (hfound : s cid = some items) (hne : items ≠ []) :
    createCheckoutSession s cid = Except.ok (items.map toLineItem) ∧
    ∀ it ∈ items,
      (toLineItem it).quantity = it.quantity ∧
      (toLineItem it).price_data.currency = "USD" ∧
      (toLineItem it).price_data.unit_amount = it.price ∧
      (toLineItem it).price_data.product_data.name = it.name ∧
      ((toLineItem it).price_data.product_data.description ≠ none → it.description ≠ none) ∧
      (∀ im, it.image = some im → im ≠ "" →
        (toLineItem it).price_data.product_data.images = [im]) ∧
      ((it.image = none ∨ it.image = some "") →
        (toLineItem it).price_data.product_data.images = []) := by
  constructor
  · simp only [createCheckoutSession, hfound]
    rw [if_neg (by simpa [List.length_eq_zero] using hne)]
  · intro it _
    refine ⟨rfl, rfl, rfl, rfl, ?_, ?_, ?_⟩
    · intro hd
      cases hdesc : it.description with
      | none => simp [toLineItem, truthyString, hdesc] at hd
      | some d => simp [hdesc]
    · intro im him hne'
      simp [toLineItem, him, hne']
    · intro him
      rcases him with him | him <;> simp [toLineItem, him]

/-- C9 amended witness: checkout of cart `w`, holding one item with a
non-empty image, produces the single projected line item. -/
theorem checkout_projects_line_items_witness :
    storeOneMug "w" = some [⟨"m", "Mug", some "big", some "mug.png", 500, 2⟩] ∧
    createCheckoutSession storeOneMug "w"
      = Except.ok [toLineItem ⟨"m", "Mug", some "big", some "mug.png", 500, 2⟩] := by
  refine ⟨rfl, ?_⟩
  have h := (checkout_projects_line_items storeOneMug "w"
      [⟨"m", "Mug", some "big", some "mug.png", 500, 2⟩] rfl (by decide)).1
  simpa using h

/-- C10 counterexample: when the input's quantity is an explicit 0, the
resolver-map `addItem` (`input.quantity || 1`) applies 1 while the
schema-builder `addItem` (`input.quantity ?? 1`) applies 0 — the two
implementations do not agree at zero. -/
theorem addItem_versions_disagree_at_zero :
    resolverMapEffectiveQuantity (some 0) = 1 ∧
    builderEffectiveQuantity (some 0) = 0 ∧
    resolverMapEffectiveQuantity (some 0) ≠ builderEffectiveQuantity (some 0) := by
  refine ⟨by decide, by decide, by decide⟩

/-- C10 amended: the two `addItem` implementations apply the same
effective quantity whenever the input's quantity is absent, null or
nonzero (both default to 1 on absent/null); the only disagreement is an
explicit quantity 0, where the resolver-map version applies 1 and the
schema-builder version applies 0. -/
theorem addItem_versions_effective_quantity (q : Option Int) :
    resolverMapEffectiveQuantity q = builderEffectiveQuantity q ∨
      (q = some 0 ∧ resolverMapEffectiveQuantity q = 1 ∧ builderEffectiveQuantity q = 0) := by
  cases q with
  | none => exact Or.inl rfl
  | some n =>
      by_cases h : n = 0
      · exact Or.inr ⟨by rw [h], by simp [resolverMapEffectiveQuantity, h],
          by simp [builderEffectiveQuantity, h]⟩
      · exact Or.inl (by simp [resolverMapEffectiveQuantity, builderEffectiveQuantity, h])

end CartApi
